import Mathlib

/-!
Shallow embedding of the `ecommerce-customer-satisfaction/scripts` EDA helpers
(`eda_pipeline.py`, `data_loader.py`, `utils.py`) and proofs about the
column-classification, loading, statistics and casting behaviour.

Tables are modelled column-major: a `DataFrame` is a row count plus a list of
named, dtyped columns whose cells are dynamic `Value`s.  Floating point cells
are modelled as exact rationals; `pd.to_datetime` element parsing is abstracted
by an arbitrary `parse : String → Option Int` parameter (a string parses as a
date iff `parse` returns `some`), with non-string non-null cells always
accepted (pandas treats numbers as epoch offsets).
-/

attribute [local semireducible] Rat.add Rat.mul Rat.inv Rat.sub

namespace Olist

inductive Dtype
  | int64
  | float64
  | objectType
  | stringType
  | categoryType
  | datetime64
  deriving DecidableEq

inductive Value
  | vInt (n : Int)
  | vFloat (q : ℚ)
  | vStr (s : String)
  | vDate (d : Int)
  | vNull
  deriving DecidableEq

structure Col where
  name : String
  dtype : Dtype
  values : List Value
  deriving DecidableEq

structure DataFrame where
  nrows : Nat
  cols : List Col
  deriving DecidableEq

def colNames (df : DataFrame) : List String := df.cols.map Col.name

def isTextDtype : Dtype → Bool
  | .objectType => true
  | .stringType => true
  | _ => false

def isNumericDtype : Dtype → Bool
  | .int64 => true
  | .float64 => true
  | _ => false

def isNull : Value → Bool
  | .vNull => true
  | _ => false

/-- Element behaviour of strict `pd.to_datetime` (raise on error): nulls map to
`NaT`, strings succeed iff `parse` succeeds, existing dates pass through, and
numeric cells are accepted as epoch offsets. -/
def tryParseValue (parse : String → Option Int) : Value → Option Value
  | .vNull => some .vNull
  | .vStr s => (parse s).map .vDate
  | .vDate d => some (.vDate d)
  | .vInt n => some (.vDate n)
  | .vFloat q => some (.vDate ⌊q⌋)

/-- Models strict `pd.to_datetime(df[col])` on a whole column: returns
the coerced cells when every cell parses, `none` when any cell raises. -/
def tryToDatetime (parse : String → Option Int) : List Value → Option (List Value)
  | [] => some []
  | v :: rest =>
    (tryParseValue parse v).bind
      (fun w => (tryToDatetime parse rest).map (fun ws => w :: ws))

def parsesAsDate (parse : String → Option Int) (v : Value) : Bool :=
  (tryParseValue parse v).isSome

/-- Distinct values in order of first occurrence, given already-seen values. -/
def uniquesFrom (seen : List Value) : List Value → List Value
  | [] => []
  | v :: rest =>
    if v ∈ seen then uniquesFrom seen rest
    else v :: uniquesFrom (v :: seen) rest

/-- Distinct non-null values of a column, in order of first occurrence. -/
def uniques (vals : List Value) : List Value :=
  uniquesFrom [] (vals.filter (fun v => !isNull v))

/-- Models `Series.nunique()`: count of distinct non-null values. -/
def nunique (vals : List Value) : Nat := (uniques vals).length

/-- Lines 31-41 of `eda_pipeline.py`: a column enters `datetime_cols` when its
dtype is already datetime, or it is object/string typed and the whole-column
parse succeeds. -/
def isDatetimeCol (parse : String → Option Int) (c : Col) : Bool :=
  c.dtype == .datetime64 ||
    (isTextDtype c.dtype && (tryToDatetime parse c.values).isSome)

/-- Lines 36-41: `self.df[col] = pd.to_datetime(df[col])` fires only when the
probing parse succeeded; otherwise the copied column is left untouched. -/
def coerceCol (parse : String → Option Int) (c : Col) : Col :=
  if isTextDtype c.dtype then
    match tryToDatetime parse c.values with
    | some vs => ⟨c.name, Dtype.datetime64, vs⟩
    | none => c
  else c

structure Config where
  target_col : Option String
  categorical_threshold : Nat
  high_cardinality_threshold : Nat

def datetimeCols (parse : String → Option Int) (df : DataFrame) : List String :=
  (df.cols.filter (fun c => isDatetimeCol parse c)).map Col.name

/-- Line 44: numeric dtype selection via `df.select_dtypes` (int64, float64). -/
def numericalCols0 (df : DataFrame) : List String :=
  (df.cols.filter (fun c => isNumericDtype c.dtype)).map Col.name

/-- Lines 44-51: numeric-dtype columns, minus the target, minus datetimes. -/
def numericalCols (parse : String → Option Int) (df : DataFrame) (cfg : Config) :
    List String :=
  (match cfg.target_col with
    | some t => (numericalCols0 df).erase t
    | none => numericalCols0 df).filter
    (fun n => decide (n ∉ datetimeCols parse df))

/-- Lines 64-69: categorical dtype, or object/string dtype, or numeric dtype
with `n_unique <= categorical_threshold`. -/
def isCatCandidate (cfg : Config) (c : Col) : Bool :=
  (c.dtype == .categoryType) || isTextDtype c.dtype ||
    (isNumericDtype c.dtype &&
      decide (nunique c.values ≤ cfg.categorical_threshold))

/-- Line 58: the categorical loop skips the target column and datetime columns. -/
def featurePred (parse : String → Option Int) (df : DataFrame) (cfg : Config)
    (c : Col) : Bool :=
  decide (cfg.target_col ≠ some c.name) &&
    decide (c.name ∉ datetimeCols parse df)

/-- Lines 57-74: candidates with `n_unique <= high_cardinality_threshold`. -/
def categoricalCols (parse : String → Option Int) (df : DataFrame)
    (cfg : Config) : List String :=
  (df.cols.filter (fun c => featurePred parse df cfg c && isCatCandidate cfg c &&
      decide (nunique c.values ≤ cfg.high_cardinality_threshold))).map Col.name

/-- Lines 57-78: candidates with `n_unique > high_cardinality_threshold`. -/
def highCardinalityCols (parse : String → Option Int) (df : DataFrame)
    (cfg : Config) : List String :=
  (df.cols.filter (fun c => featurePred parse df cfg c && isCatCandidate cfg c &&
      decide (cfg.high_cardinality_threshold < nunique c.values))).map Col.name

structure EDA_Pipeline where
  df : DataFrame
  target_col : Option String
  categorical_threshold : Nat
  high_cardinality_threshold : Nat
  datetime_cols : List String
  numerical_cols : List String
  categorical_cols : List String
  high_cardinality_cols : List String

/-- Model of `EDA_Pipeline.__init__` (lines 13-78 of `eda_pipeline.py`). -/
def mkPipeline (parse : String → Option Int) (df : DataFrame) (cfg : Config) :
    EDA_Pipeline :=
  { df := ⟨df.nrows, df.cols.map (coerceCol parse)⟩
    target_col := cfg.target_col
    categorical_threshold := cfg.categorical_threshold
    high_cardinality_threshold := cfg.high_cardinality_threshold
    datetime_cols := datetimeCols parse df
    numerical_cols := numericalCols parse df cfg
    categorical_cols := categoricalCols parse df cfg
    high_cardinality_cols := highCardinalityCols parse df cfg }

def getCol (df : DataFrame) (name : String) : Option Col :=
  df.cols.find? (fun c => c.name == name)

/-! ### Univariate statistics (report driver) -/

/-- Number of occurrences of a value in a column. -/
def countOcc (v : Value) (vals : List Value) : Nat :=
  (vals.filter (fun w => w == v)).length

/-- Descending-count order on `(value, count)` pairs. -/
def cntGE (a b : Value × Nat) : Prop := b.2 ≤ a.2

instance : DecidableRel cntGE := fun a b =>
  inferInstanceAs (Decidable (b.2 ≤ a.2))

instance : IsTotal (Value × Nat) cntGE := ⟨fun a b => le_total b.2 a.2⟩

instance : IsTrans (Value × Nat) cntGE := ⟨fun _ _ _ h1 h2 => le_trans h2 h1⟩

/-- Models `Series.value_counts()`: one `(value, count)` pair per distinct
non-null value, sorted by descending count. -/
def valueCounts (vals : List Value) : List (Value × Nat) :=
  ((uniques vals).map (fun v => (v, countOcc v vals))).insertionSort cntGE

/-- Round a rational to two decimal places (`round(2)` / `:.2f`). -/
def round2 (q : ℚ) : ℚ := ((round (q * 100) : ℤ) : ℚ) / 100

structure CatProfile where
  counts : List (Value × Nat)
  pcts : List (Value × ℚ)
  deriving DecidableEq

/-- Lines 286-299 of `eda_pipeline.py`: full value counts plus percentage
distribution for a low-cardinality categorical column. -/
def univariate_categorical_col (total : Nat) (vals : List Value) : CatProfile :=
  { counts := valueCounts vals
    pcts := (valueCounts vals).map
      (fun p => (p.1, round2 ((p.2 : ℚ) / (total : ℚ) * 100))) }

/-- Lines 334-340: `value_counts().head(5)` with percentages, for a
high-cardinality column. -/
def univariate_highcard_col (total : Nat) (vals : List Value) : CatProfile :=
  { counts := (valueCounts vals).take 5
    pcts := ((valueCounts vals).take 5).map
      (fun p => (p.1, round2 ((p.2 : ℚ) / (total : ℚ) * 100))) }

def toRat : Value → Option ℚ
  | .vInt n => some (n : ℚ)
  | .vFloat q => some q
  | _ => none

/-- Non-null numeric cells of a column. -/
def numericList (vals : List Value) : List ℚ := vals.filterMap toRat

def sortedNumeric (vals : List Value) : List ℚ :=
  (numericList vals).insertionSort (fun a b => a ≤ b)

/-- Models `Series.quantile(q)` with the default linear interpolation over the sorted
non-null values: position `q*(n-1)`, linear between the two nearest ranks. -/
def quantile (xs : List ℚ) (q : ℚ) : ℚ :=
  let pos : ℚ := q * ((xs.length : ℚ) - 1)
  let i : Nat := (Rat.floor pos).toNat
  let lo := xs.getD i 0
  let hi := xs.getD (i + 1) lo
  lo + (pos - (i : ℚ)) * (hi - lo)

def quartile1 (vals : List Value) : ℚ := quantile (sortedNumeric vals) (1 / 4)

def quartile3 (vals : List Value) : ℚ := quantile (sortedNumeric vals) (3 / 4)

/-- Lower fence `Q1 - 1.5*IQR` (line 248). -/
def lowerFence (vals : List Value) : ℚ :=
  quartile1 vals - 3 / 2 * (quartile3 vals - quartile1 vals)

/-- Upper fence `Q3 + 1.5*IQR` (line 248). -/
def upperFence (vals : List Value) : ℚ :=
  quartile3 vals + 3 / 2 * (quartile3 vals - quartile1 vals)

/-- Per-cell contribution to the fence filter of line 248: comparisons
against `NaN`/null are false, so only numeric cells can be selected. -/
def isOutlierValue (vals : List Value) (v : Value) : Bool :=
  match toRat v with
  | some q => decide (q < lowerFence vals) || decide (upperFence vals < q)
  | none => false

/-- Lines 244-249: number of rows selected by the 1.5-IQR fence filter. -/
def outlierCount (vals : List Value) : Nat :=
  (vals.filter (isOutlierValue vals)).length

structure NumProfile where
  count : Nat
  mean : Option ℚ
  outliers : Nat
  deriving DecidableEq

/-- Numeric summary computed by `univariate_numerical` (lines 238-249):
non-null count, mean (undefined on an empty column), and outlier count. -/
def univariate_numerical_col (vals : List Value) : NumProfile :=
  { count := (numericList vals).length
    mean :=
      if (numericList vals).length = 0 then none
      else some ((numericList vals).sum / ((numericList vals).length : ℚ))
    outliers := outlierCount vals }

/-! ### Overview section (`data_overview`, lines 100-128) -/

def missingCount (vals : List Value) : Nat := (vals.filter isNull).length

def rowAt (df : DataFrame) (i : Nat) : List Value :=
  df.cols.map (fun c => c.values.getD i Value.vNull)

/-- Models `df.duplicated()`: a row is marked iff it equals some earlier row. -/
def isDupRow (df : DataFrame) (i : Nat) : Bool :=
  (List.range i).any (fun j => rowAt df j == rowAt df i)

def duplicatedCount (df : DataFrame) : Nat :=
  ((List.range df.nrows).filter (isDupRow df)).length

/-- Descending order on missing-table entries `(name, count, pct)`. -/
def missGE (a b : String × Nat × ℚ) : Prop := b.2.1 ≤ a.2.1

instance : DecidableRel missGE := fun a b =>
  inferInstanceAs (Decidable (b.2.1 ≤ a.2.1))

instance : IsTotal (String × Nat × ℚ) missGE := ⟨fun a b => le_total b.2.1 a.2.1⟩

instance : IsTrans (String × Nat × ℚ) missGE :=
  ⟨fun _ _ _ h1 h2 => le_trans h2 h1⟩

structure OverviewReport where
  missingTable : List (String × Nat × ℚ)
  dupCount : Nat
  dupPct : ℚ
  deriving DecidableEq

/-- Model of `data_overview` (lines 112-126): missing-value table restricted to columns
with at least one null, sorted descending by missing count, plus duplicate-row
count and its percentage as printed with `:.2f`. -/
def data_overview (df : DataFrame) : OverviewReport :=
  { missingTable :=
      ((df.cols.filter (fun c => decide (0 < missingCount c.values))).map
        (fun c => (c.name, missingCount c.values,
          round2 ((missingCount c.values : ℚ) / (df.nrows : ℚ) * 100)))).insertionSort
        missGE
    dupCount := duplicatedCount df
    dupPct := round2 ((duplicatedCount df : ℚ) / (df.nrows : ℚ) * 100) }

/-! ### Loader (`data_loader.py`) -/

inductive FileContent
  | good (df : DataFrame)
  | emptyCsv
  | malformedCsv
  deriving DecidableEq

structure FS where
  dirExists : Bool
  files : List (String × FileContent)
  deriving DecidableEq

inductive FailKind
  | missingFile
  | emptyOrMalformed
  | unspecified
  deriving DecidableEq

inductive LoadError
  | pathNotFound
  deriving DecidableEq

/-- The fixed dataset-name → filename mapping (lines 36-46). -/
def datasets : List (String × String) :=
  [("customers", "olist_customers_dataset.csv"),
   ("geolocation", "olist_geolocation_dataset.csv"),
   ("order_items", "olist_order_items_dataset.csv"),
   ("orders", "olist_orders_dataset.csv"),
   ("order_payments", "olist_order_payments_dataset.csv"),
   ("order_reviews", "olist_order_reviews_dataset.csv"),
   ("products", "olist_products_dataset.csv"),
   ("sellers", "olist_sellers_dataset.csv"),
   ("product_category_name_translation", "product_category_name_translation.csv")]

def lookupFile (fs : FS) (file : String) : Option FileContent :=
  (fs.files.find? (fun p => p.1 == file)).map (fun p => p.2)

/-- One iteration of the loading loop (lines 52-83): a present, well-formed
file yields a frame; otherwise a categorized failure is recorded. -/
def loadOne (fs : FS) (name file : String) :
    (String × DataFrame) ⊕ (String × FailKind × String) :=
  match lookupFile fs file with
  | none => Sum.inr (name, FailKind.missingFile, "File not found: " ++ file)
  | some (FileContent.good df) => Sum.inl (name, df)
  | some FileContent.emptyCsv =>
      Sum.inr (name, FailKind.emptyOrMalformed, "Empty CSV file")
  | some FileContent.malformedCsv =>
      Sum.inr (name, FailKind.emptyOrMalformed, "Parse error")

/-- The loading loop: frames and failures both accumulate in iteration order. -/
def loadList (fs : FS) :
    List (String × String) →
      List (String × DataFrame) × List (String × FailKind × String)
  | [] => ([], [])
  | (name, file) :: rest =>
    match loadOne fs name file with
    | Sum.inl p => (p :: (loadList fs rest).1, (loadList fs rest).2)
    | Sum.inr f => ((loadList fs rest).1, f :: (loadList fs rest).2)

/-- Model of `load_data` (lines 33-97): fails fast when the directory is missing,
otherwise loads every expected dataset best-effort, returning the loaded
frames and the recorded failures. -/
def load_data (fs : FS) :
    Except LoadError
      (List (String × DataFrame) × List (String × FailKind × String)) :=
  if fs.dirExists then Except.ok (loadList fs datasets)
  else Except.error LoadError.pathNotFound

def isGood : FileContent → Bool
  | FileContent.good _ => true
  | _ => false

/-- Every file in the directory is a well-formed CSV. -/
def allGood (fs : FS) : Prop := ∀ p ∈ fs.files, isGood p.2 = true

/-- Whether the file backing a dataset entry is present in the directory. -/
def presentD (fs : FS) (d : String × String) : Bool := (lookupFile fs d.2).isSome

/-- How many of the nine expected files are present in the directory. -/
def presentCount (fs : FS) : Nat := (datasets.filter (presentD fs)).length

/-! ### Type caster (`utils.py`) -/

/-- Replace the column named `name` (models `df[column] = ...`). -/
def setCol (df : DataFrame) (name : String) (c : Col) : DataFrame :=
  ⟨df.nrows, df.cols.map (fun d => if d.name == name then c else d)⟩

/-- One loop iteration of `cast_data_types` (lines 16-20): look the column up
and cast it with the supplied cast semantics (`pd.to_datetime` / `astype`),
`none` modelling a raised exception. -/
def castOne (castFn : Col → String → Option Col) (df : DataFrame)
    (column : String) (dtype : String) : Option DataFrame :=
  match df.cols.find? (fun c => c.name == column) with
  | none => none
  | some c =>
    match castFn c dtype with
    | none => none
    | some c2 => some (setCol df column c2)

/-- The casting loop: columns are converted in place one at a time; a raise
aborts the loop with the partially-converted dataframe visible to the caller. -/
def castList (castFn : Col → String → Option Col) (df : DataFrame) :
    List (String × String) → Except DataFrame DataFrame
  | [] => Except.ok df
  | (column, dtype) :: rest =>
    match castOne castFn df column dtype with
    | some df2 => castList castFn df2 rest
    | none => Except.error df

structure TypeReport where
  before : List (String × Dtype)
  after : List (String × Dtype)
  deriving DecidableEq

def dtypesOf (df : DataFrame) : List (String × Dtype) :=
  df.cols.map (fun c => (c.name, c.dtype))

/-- Model of `cast_data_types` (lines 3-30 of `utils.py`): the before/after type report
is printed only after the loop finishes, so a raise mid-loop yields the
partially-converted dataframe and no report. -/
def cast_data_types (castFn : Col → String → Option Col) (df : DataFrame)
    (type_mapping : List (String × String)) :
    Except DataFrame (DataFrame × TypeReport) :=
  match castList castFn df type_mapping with
  | Except.ok df2 => Except.ok (df2, ⟨dtypesOf df, dtypesOf df2⟩)
  | Except.error dfStopped => Except.error dfStopped

def parseNone : String → Option Int := fun _ => none

def parseIso : String → Option Int := fun s =>
  if s == "2024-01-01" then some 19723 else none

def defaultCfg : Config := ⟨none, 10, 100⟩

/-! ### Concrete tables used in counterexamples and witnesses -/

def c1df : DataFrame := ⟨2, [⟨"n", Dtype.int64, [.vInt 1, .vInt 2]⟩]⟩

def datesCol : Col := ⟨"d", Dtype.objectType, [.vStr "2024-01-01", .vNull]⟩

def c2df : DataFrame := ⟨2, [datesCol]⟩

def c3df : DataFrame := ⟨1, [⟨"t", Dtype.objectType, [.vStr "2024-01-01"]⟩]⟩

def c3cfg : Config := ⟨some "t", 10, 100⟩

def c5vals : List Value :=
  [.vStr "a", .vStr "a", .vStr "b", .vStr "c", .vStr "d"]

def c5col : Col := ⟨"v", Dtype.objectType, c5vals⟩

def c5df : DataFrame := ⟨5, [c5col]⟩

def c5cfg : Config := ⟨none, 10, 2⟩

def c6vals : List Value :=
  [.vInt 1, .vInt 5, .vInt 10, .vInt 12, .vInt 15, .vInt 18, .vInt 20,
   .vInt 34, .vInt 36]

def c7df : DataFrame :=
  ⟨3, [⟨"a", Dtype.float64, [.vFloat 1, .vFloat 1, .vNull]⟩,
       ⟨"b", Dtype.int64, [.vInt 2, .vInt 2, .vInt 2]⟩]⟩

def c8col : Col := ⟨"c", Dtype.objectType, [.vNull]⟩

def c8df : DataFrame := ⟨1, [c8col]⟩

def c8colF : Col := ⟨"f", Dtype.float64, [.vNull]⟩

def c8dfF : DataFrame := ⟨1, [c8colF]⟩

def c9col : Col := ⟨"s", Dtype.objectType, [.vStr "2024-01-01", .vStr "oops"]⟩

def c9df : DataFrame := ⟨2, [c9col]⟩

def emptyDf : DataFrame := ⟨0, []⟩

/-- A directory holding 7 of the 9 expected files (orders and sellers absent),
all well-formed. -/
def fs7 : FS :=
  ⟨true,
   [("olist_customers_dataset.csv", FileContent.good emptyDf),
    ("olist_geolocation_dataset.csv", FileContent.good emptyDf),
    ("olist_order_items_dataset.csv", FileContent.good emptyDf),
    ("olist_order_payments_dataset.csv", FileContent.good emptyDf),
    ("olist_order_reviews_dataset.csv", FileContent.good emptyDf),
    ("olist_products_dataset.csv", FileContent.good emptyDf),
    ("product_category_name_translation.csv", FileContent.good emptyDf)]⟩

/-- A cast semantics that can cast any column to `int64` and nothing else. -/
def castFn10 : Col → String → Option Col := fun c d =>
  if d == "int64" then some ⟨c.name, Dtype.int64, c.values⟩ else none

def c10df : DataFrame :=
  ⟨1, [⟨"a", Dtype.objectType, [.vStr "1"]⟩,
       ⟨"b", Dtype.objectType, [.vStr "x"]⟩]⟩

/-- The table `c10df` after its first column has been cast to `int64`. -/
def c10df1 : DataFrame :=
  ⟨1, [⟨"a", Dtype.int64, [.vStr "1"]⟩,
       ⟨"b", Dtype.objectType, [.vStr "x"]⟩]⟩

/-! ### Supporting lemmas -/

theorem mem_filter_names {pr : Col → Bool} {cols : List Col} {c : Col}
    (hn : (cols.map Col.name).Nodup) (hc : c ∈ cols) :
    c.name ∈ (cols.filter pr).map Col.name ↔ pr c = true := by
  constructor
  · intro hm
    rcases List.mem_map.mp hm with ⟨c2, hc2, hname⟩
    rcases List.mem_filter.mp hc2 with ⟨hc2mem, hp⟩
    have heq : c2 = c := List.inj_on_of_nodup_map hn hc2mem hc hname
    rwa [heq] at hp
  · intro hp
    exact List.mem_map.mpr ⟨c, List.mem_filter.mpr ⟨hc, hp⟩, rfl⟩

theorem nodup_filter_names {pr : Col → Bool} {cols : List Col}
    (hn : (cols.map Col.name).Nodup) : ((cols.filter pr).map Col.name).Nodup :=
  hn.sublist ((List.filter_sublist cols).map Col.name)

theorem mem_datetimeCols {parse : String → Option Int} {df : DataFrame} {c : Col}
    (hn : (colNames df).Nodup) (hc : c ∈ df.cols) :
    c.name ∈ datetimeCols parse df ↔ isDatetimeCol parse c = true :=
  mem_filter_names hn hc

theorem mem_numericalCols0 {df : DataFrame} {c : Col}
    (hn : (colNames df).Nodup) (hc : c ∈ df.cols) :
    c.name ∈ numericalCols0 df ↔ isNumericDtype c.dtype = true :=
  mem_filter_names hn hc

theorem mem_numericalCols {parse : String → Option Int} {df : DataFrame}
    {cfg : Config} {c : Col} (hn : (colNames df).Nodup) (hc : c ∈ df.cols) :
    c.name ∈ numericalCols parse df cfg ↔
      (isNumericDtype c.dtype = true ∧ cfg.target_col ≠ some c.name ∧
        c.name ∉ datetimeCols parse df) := by
  unfold numericalCols
  rw [List.mem_filter]
  cases htc : cfg.target_col with
  | none =>
    simp only [decide_eq_true_eq]
    rw [mem_numericalCols0 hn hc]
    constructor
    · rintro ⟨h1, h2⟩
      exact ⟨h1, by simp, h2⟩
    · rintro ⟨h1, _, h3⟩
      exact ⟨h1, h3⟩
  | some t =>
    have hnd : (numericalCols0 df).Nodup := nodup_filter_names hn
    simp only [decide_eq_true_eq]
    rw [hnd.mem_erase_iff, mem_numericalCols0 hn hc]
    constructor
    · rintro ⟨⟨hne, h1⟩, h2⟩
      exact ⟨h1, fun h => hne (Option.some.inj h).symm, h2⟩
    · rintro ⟨h1, h2, h3⟩
      exact ⟨⟨fun h => h2 (by rw [h]), h1⟩, h3⟩

theorem mem_categoricalCols {parse : String → Option Int} {df : DataFrame}
    {cfg : Config} {c : Col} (hn : (colNames df).Nodup) (hc : c ∈ df.cols) :
    c.name ∈ categoricalCols parse df cfg ↔
      (cfg.target_col ≠ some c.name ∧ c.name ∉ datetimeCols parse df ∧
        isCatCandidate cfg c = true ∧
        nunique c.values ≤ cfg.high_cardinality_threshold) := by
  unfold categoricalCols
  rw [mem_filter_names hn hc]
  simp [featurePred, Bool.and_eq_true, decide_eq_true_eq, and_assoc]

theorem mem_highCardinalityCols {parse : String → Option Int} {df : DataFrame}
    {cfg : Config} {c : Col} (hn : (colNames df).Nodup) (hc : c ∈ df.cols) :
    c.name ∈ highCardinalityCols parse df cfg ↔
      (cfg.target_col ≠ some c.name ∧ c.name ∉ datetimeCols parse df ∧
        isCatCandidate cfg c = true ∧
        cfg.high_cardinality_threshold < nunique c.values) := by
  unfold highCardinalityCols
  rw [mem_filter_names hn hc]
  simp [featurePred, Bool.and_eq_true, decide_eq_true_eq, and_assoc]

theorem tryToDatetime_isSome_iff (parse : String → Option Int)
    (vals : List Value) :
    (tryToDatetime parse vals).isSome = true ↔
      ∀ v ∈ vals, (tryParseValue parse v).isSome = true := by
  induction vals with
  | nil => simp [tryToDatetime]
  | cons v rest ih =>
    rw [tryToDatetime]
    cases hv : tryParseValue parse v with
    | none =>
      simp only [Option.none_bind, Option.isSome_none, Bool.false_eq_true,
        false_iff]
      intro hall
      have := hall v (List.mem_cons_self v rest)
      rw [hv] at this
      simp at this
    | some w =>
      cases hr : tryToDatetime parse rest with
      | none =>
        rw [hr] at ih
        simp only [Option.isSome_none, Bool.false_eq_true, false_iff] at ih
        push_neg at ih
        rcases ih with ⟨u, hu, hpu⟩
        simp only [Option.some_bind, hr, Option.map_none', Option.isSome_none,
          Bool.false_eq_true, false_iff]
        intro hall
        exact hpu (hall u (List.mem_cons_of_mem v hu))
      | some ws =>
        rw [hr] at ih
        simp only [Option.isSome_some, true_iff] at ih
        simp only [Option.some_bind, hr, Option.map_some', Option.isSome_some,
          true_iff]
        rintro u hu
        rcases List.mem_cons.mp hu with rfl | hur
        · rw [hv]; rfl
        · exact ih u hur

theorem tryToDatetime_eq_none {parse : String → Option Int} {vals : List Value}
    (h : ∃ v ∈ vals, tryParseValue parse v = none) :
    tryToDatetime parse vals = none := by
  cases ht : tryToDatetime parse vals with
  | none => rfl
  | some ws =>
    rcases h with ⟨v, hv, hpv⟩
    have hall := (tryToDatetime_isSome_iff parse vals).mp (by rw [ht]; rfl) v hv
    rw [hpv] at hall
    simp at hall

theorem coerceCol_name (parse : String → Option Int) (c : Col) :
    (coerceCol parse c).name = c.name := by
  unfold coerceCol
  split
  · split <;> rfl
  · rfl

theorem coerceCol_of_parse_fail {parse : String → Option Int} {c : Col}
    (h : tryToDatetime parse c.values = none) : coerceCol parse c = c := by
  unfold coerceCol
  split
  · rw [h]
  · rfl

theorem coerceCol_of_parse_ok {parse : String → Option Int} {c : Col}
    (htext : isTextDtype c.dtype = true) {vs : List Value}
    (h : tryToDatetime parse c.values = some vs) :
    coerceCol parse c = ⟨c.name, Dtype.datetime64, vs⟩ := by
  unfold coerceCol
  rw [if_pos htext, h]

theorem coerceCol_of_not_text {parse : String → Option Int} {c : Col}
    (h : isTextDtype c.dtype = false) : coerceCol parse c = c := by
  unfold coerceCol
  simp [h]

theorem getCol_map_coerce (parse : String → Option Int) {cols : List Col}
    {c : Col} {n : Nat} (hn : (cols.map Col.name).Nodup) (hc : c ∈ cols) :
    getCol ⟨n, cols.map (coerceCol parse)⟩ c.name =
      some (coerceCol parse c) := by
  induction cols with
  | nil => cases hc
  | cons d rest ih =>
    rw [List.map_cons, List.nodup_cons] at hn
    rcases List.mem_cons.mp hc with rfl | hcr
    · unfold getCol
      rw [List.map_cons]
      exact List.find?_cons_of_pos _ (by rw [coerceCol_name]; exact beq_self_eq_true _)
    · have hnames : c.name ∈ rest.map Col.name := List.mem_map_of_mem Col.name hcr
      have hne : d.name ≠ c.name := fun h => hn.1 (h ▸ hnames)
      unfold getCol at ih ⊢
      rw [List.map_cons, List.find?_cons_of_neg _ (by
        rw [coerceCol_name]
        simp [hne])]
      exact ih hn.2 hcr

theorem isTextDtype_not_numeric {d : Dtype} (h : isTextDtype d = true) :
    isNumericDtype d = false := by
  cases d <;> simp_all [isTextDtype, isNumericDtype]

theorem isTextDtype_ne_datetime {d : Dtype} (h : isTextDtype d = true) :
    (d == Dtype.datetime64) = false := by
  cases d <;> simp_all [isTextDtype]

theorem isNumericDtype_not_datetimeCol {parse : String → Option Int} {c : Col}
    (h : isNumericDtype c.dtype = true) : isDatetimeCol parse c = false := by
  unfold isDatetimeCol
  cases hd : c.dtype <;> simp_all [isNumericDtype, isTextDtype]

theorem isNumericDtype_cases {d : Dtype} (h : isNumericDtype d = true) :
    (d == Dtype.categoryType) = false ∧ isTextDtype d = false := by
  cases d <;> simp_all [isNumericDtype, isTextDtype]

theorem nunique_of_all_null {vals : List Value}
    (hall : ∀ v ∈ vals, v = Value.vNull) : nunique vals = 0 := by
  have hf : vals.filter (fun v => !isNull v) = [] := by
    rw [List.filter_eq_nil_iff]
    intro v hv
    rw [hall v hv]
    simp [isNull]
  unfold nunique uniques
  rw [hf]
  rfl

theorem uniques_of_all_null {vals : List Value}
    (hall : ∀ v ∈ vals, v = Value.vNull) : uniques vals = [] := by
  have hf : vals.filter (fun v => !isNull v) = [] := by
    rw [List.filter_eq_nil_iff]
    intro v hv
    rw [hall v hv]
    simp [isNull]
  unfold uniques
  rw [hf]
  rfl

theorem numericList_of_all_null {vals : List Value}
    (hall : ∀ v ∈ vals, v = Value.vNull) : numericList vals = [] := by
  unfold numericList
  rw [List.filterMap_eq_nil_iff]
  intro v hv
  rw [hall v hv]
  rfl

theorem length_filter_toRat (P : ℚ → Bool) (l : List Value) :
    (l.filter (fun v =>
      match toRat v with
      | some q => P q
      | none => false)).length = ((l.filterMap toRat).filter P).length := by
  induction l with
  | nil => rfl
  | cons v rest ih =>
    cases hv : toRat v with
    | none => simp [List.filter_cons, List.filterMap_cons, hv, ih]
    | some q =>
      cases hp : P q <;>
        simp [List.filter_cons, List.filterMap_cons, hv, hp, ih]

theorem loadOne_cases (fs : FS) (hg : allGood fs) (name file : String) :
    (∃ dfr, loadOne fs name file = Sum.inl (name, dfr) ∧
      presentD fs (name, file) = true) ∨
    (loadOne fs name file =
        Sum.inr (name, FailKind.missingFile, "File not found: " ++ file) ∧
      presentD fs (name, file) = false) := by
  cases hl : lookupFile fs file with
  | none =>
    right
    constructor
    · unfold loadOne
      rw [hl]
    · unfold presentD
      rw [hl]
      rfl
  | some fc =>
    left
    have hgood : isGood fc = true := by
      unfold lookupFile at hl
      rcases Option.map_eq_some'.mp hl with ⟨p, hfind, hp2⟩
      have hpmem : p ∈ fs.files := List.mem_of_find?_eq_some hfind
      rw [← hp2]
      exact hg p hpmem
    cases fc with
    | good dfr =>
      refine ⟨dfr, ?_, ?_⟩
      · unfold loadOne
        rw [hl]
      · unfold presentD
        rw [hl]
        rfl
    | emptyCsv => simp [isGood] at hgood
    | malformedCsv => simp [isGood] at hgood

theorem loadList_spec (fs : FS) (hg : allGood fs) (L : List (String × String)) :
    (loadList fs L).1.length = (L.filter (presentD fs)).length ∧
    (loadList fs L).1.length + (loadList fs L).2.length = L.length ∧
    ∀ f ∈ (loadList fs L).2, f.2.1 = FailKind.missingFile := by
  induction L with
  | nil => simp [loadList]
  | cons d rest ih =>
    obtain ⟨name, file⟩ := d
    obtain ⟨ih1, ih2, ih3⟩ := ih
    rcases loadOne_cases fs hg name file with ⟨dfr, hone, hpres⟩ | ⟨hone, hpres⟩
    · rw [loadList, hone]
      refine ⟨?_, ?_, ih3⟩
      · rw [List.filter_cons, hpres]
        simpa using ih1
      · simp only [List.length_cons]
        omega
    · rw [loadList, hone]
      refine ⟨?_, ?_, ?_⟩
      · rw [List.filter_cons, hpres]
        simpa using ih1
      · simp only [List.length_cons]
        omega
      · intro f hf
        rcases List.mem_cons.mp hf with rfl | hfr
        · rfl
        · exact ih3 f hfr

theorem castList_append (castFn : Col → String → Option Col) (df : DataFrame)
    (l1 l2 : List (String × String)) :
    castList castFn df (l1 ++ l2) =
      match castList castFn df l1 with
      | Except.ok d => castList castFn d l2
      | Except.error d => Except.error d := by
  induction l1 generalizing df with
  | nil => simp [castList]
  | cons p rest ih =>
    obtain ⟨column, dtype⟩ := p
    rw [List.cons_append, castList, castList]
    cases castOne castFn df column dtype with
    | some df2 => simpa using ih df2
    | none => rfl

/-! ### Claim C1 -/

/-- Claim C1 is false on the code: the category lists of the classifier are not
pairwise disjoint.  On a table with a single `int64` column of 2 distinct
values (`categorical_threshold = 10`), the column lands in the numerical list
(line 44 never filters by cardinality) and also in the categorical list
(the low-cardinality-numeric rule of line 66). -/
theorem c1_counterexample :
    (mkPipeline parseNone c1df defaultCfg).numerical_cols = ["n"] ∧
    (mkPipeline parseNone c1df defaultCfg).categorical_cols = ["n"] ∧
    nunique [Value.vInt 1, Value.vInt 2] = 2 := by
  decide

/-- Claim C1 (amended): the datetime list is disjoint from the numerical,
categorical and high-cardinality lists, and the categorical and
high-cardinality lists are disjoint from each other; but a numeric-typed
non-target column with `n_unique <= categorical_threshold` appears in BOTH the
numerical list and the categorical family, while a numeric-typed non-target
column with `n_unique > categorical_threshold` appears in the numerical list
only. -/
theorem c1_amended (parse : String → Option Int) (df : DataFrame) (cfg : Config)
    (hn : (colNames df).Nodup) :
    (∀ n ∈ (mkPipeline parse df cfg).datetime_cols,
        n ∉ (mkPipeline parse df cfg).numerical_cols ∧
        n ∉ (mkPipeline parse df cfg).categorical_cols ∧
        n ∉ (mkPipeline parse df cfg).high_cardinality_cols) ∧
    (∀ n, ¬(n ∈ (mkPipeline parse df cfg).categorical_cols ∧
        n ∈ (mkPipeline parse df cfg).high_cardinality_cols)) ∧
    (∀ c ∈ df.cols, isNumericDtype c.dtype = true →
      cfg.target_col ≠ some c.name →
        c.name ∈ (mkPipeline parse df cfg).numerical_cols ∧
        (nunique c.values ≤ cfg.categorical_threshold →
          c.name ∈ (mkPipeline parse df cfg).categorical_cols ∨
          c.name ∈ (mkPipeline parse df cfg).high_cardinality_cols) ∧
        (cfg.categorical_threshold < nunique c.values →
          c.name ∉ (mkPipeline parse df cfg).categorical_cols ∧
          c.name ∉ (mkPipeline parse df cfg).high_cardinality_cols)) := by
  simp only [mkPipeline]
  refine ⟨?_, ?_, ?_⟩
  · intro n hdt
    refine ⟨?_, ?_, ?_⟩
    · intro hmem
      have h2 := (List.mem_filter.mp hmem).2
      simp only [decide_eq_true_eq] at h2
      exact h2 hdt
    · intro hmem
      rcases List.mem_map.mp hmem with ⟨c, hcf, hname⟩
      have hp := (List.mem_filter.mp hcf).2
      simp only [featurePred, Bool.and_eq_true, decide_eq_true_eq] at hp
      exact hp.1.1.2 (hname ▸ hdt)
    · intro hmem
      rcases List.mem_map.mp hmem with ⟨c, hcf, hname⟩
      have hp := (List.mem_filter.mp hcf).2
      simp only [featurePred, Bool.and_eq_true, decide_eq_true_eq] at hp
      exact hp.1.1.2 (hname ▸ hdt)
  · rintro n ⟨hcat, hhigh⟩
    rcases List.mem_map.mp hcat with ⟨c1, hc1f, hn1⟩
    rcases List.mem_map.mp hhigh with ⟨c2, hc2f, hn2⟩
    have hc1 : c1 ∈ df.cols := List.mem_of_mem_filter hc1f
    have hc2 : c2 ∈ df.cols := List.mem_of_mem_filter hc2f
    have heq : c1 = c2 :=
      List.inj_on_of_nodup_map hn hc1 hc2 (by rw [hn1, hn2])
    have hp1 := (List.mem_filter.mp hc1f).2
    have hp2 := (List.mem_filter.mp hc2f).2
    simp only [Bool.and_eq_true, decide_eq_true_eq] at hp1 hp2
    rw [heq] at hp1
    omega
  · intro c hc hnum htgt
    have hdt : c.name ∉ datetimeCols parse df := by
      rw [mem_datetimeCols hn hc]
      rw [isNumericDtype_not_datetimeCol hnum]
      simp
    refine ⟨(mem_numericalCols hn hc).mpr ⟨hnum, htgt, hdt⟩, ?_, ?_⟩
    · intro hle
      have hcand : isCatCandidate cfg c = true := by
        unfold isCatCandidate
        rw [hnum]
        simp [hle]
      by_cases hhi : nunique c.values ≤ cfg.high_cardinality_threshold
      · exact Or.inl ((mem_categoricalCols hn hc).mpr ⟨htgt, hdt, hcand, hhi⟩)
      · exact Or.inr ((mem_highCardinalityCols hn hc).mpr
          ⟨htgt, hdt, hcand, by omega⟩)
    · intro hgt
      have hnocand : isCatCandidate cfg c = false := by
        unfold isCatCandidate
        obtain ⟨h1, h2⟩ := isNumericDtype_cases hnum
        rw [h1, h2, hnum]
        simp
        omega
      constructor
      · intro hmem
        have := ((mem_categoricalCols hn hc).mp hmem).2.2.1
        rw [hnocand] at this
        exact Bool.false_ne_true this
      · intro hmem
        have := ((mem_highCardinalityCols hn hc).mp hmem).2.2.1
        rw [hnocand] at this
        exact Bool.false_ne_true this

/-- Witness for the amended C1 at a concrete table: the two-valued `int64`
column is simultaneously numerical and categorical-family. -/
theorem c1_amended_witness :
    "n" ∈ (mkPipeline parseNone c1df defaultCfg).numerical_cols ∧
    ("n" ∈ (mkPipeline parseNone c1df defaultCfg).categorical_cols ∨
      "n" ∈ (mkPipeline parseNone c1df defaultCfg).high_cardinality_cols) := by
  have h := (c1_amended parseNone c1df defaultCfg (by decide)).2.2
    ⟨"n", Dtype.int64, [Value.vInt 1, Value.vInt 2]⟩ (by decide) (by decide)
    (by decide)
  exact ⟨h.1, h.2.1 (by decide)⟩

/-! ### Claim C3 -/

/-- Claim C3 is false on the code: the datetime-probing loop (lines 30-41)
does not skip the target column, so a text-typed target whose values all parse
as dates is added to `datetime_cols`. -/
theorem c3_counterexample :
    (mkPipeline parseIso c3df c3cfg).target_col = some "t" ∧
    "t" ∈ (mkPipeline parseIso c3df c3cfg).datetime_cols := by
  decide

/-- Claim C3 (amended): the configured target column is excluded from the
numerical, categorical and high-cardinality lists regardless of its type, but
it can still appear in the datetime list (when its dtype is datetime, or it is
text-typed and fully date-parseable). -/
theorem c3_amended (parse : String → Option Int) (df : DataFrame) (cfg : Config)
    (t : String) (ht : cfg.target_col = some t) (hn : (colNames df).Nodup) :
    t ∉ (mkPipeline parse df cfg).numerical_cols ∧
    t ∉ (mkPipeline parse df cfg).categorical_cols ∧
    t ∉ (mkPipeline parse df cfg).high_cardinality_cols := by
  simp only [mkPipeline]
  refine ⟨?_, ?_, ?_⟩
  · intro hmem
    unfold numericalCols at hmem
    rw [ht] at hmem
    have h1 := (List.mem_filter.mp hmem).1
    have hnd : (numericalCols0 df).Nodup := nodup_filter_names hn
    exact (hnd.mem_erase_iff.mp h1).1 rfl
  · intro hmem
    rcases List.mem_map.mp hmem with ⟨c, hcf, hname⟩
    have hp := (List.mem_filter.mp hcf).2
    simp only [featurePred, Bool.and_eq_true, decide_eq_true_eq] at hp
    exact hp.1.1.1 (by rw [ht, hname])
  · intro hmem
    rcases List.mem_map.mp hmem with ⟨c, hcf, hname⟩
    have hp := (List.mem_filter.mp hcf).2
    simp only [featurePred, Bool.and_eq_true, decide_eq_true_eq] at hp
    exact hp.1.1.1 (by rw [ht, hname])

/-- Witness for the amended C3 at the concrete table whose text target parses
as dates. -/
theorem c3_amended_witness :
    "t" ∉ (mkPipeline parseIso c3df c3cfg).numerical_cols ∧
    "t" ∉ (mkPipeline parseIso c3df c3cfg).categorical_cols ∧
    "t" ∉ (mkPipeline parseIso c3df c3cfg).high_cardinality_cols :=
  c3_amended parseIso c3df c3cfg "t" rfl (by decide)

/-! ### Claim C2 -/

/-- Claim C2: a text-typed column is classified datetime iff every non-null
value parses as a date (nulls map to `NaT` and never block); on success the
stored values are the coerced parsed dates; on any failure the column never
becomes datetime or numerical, and (when it is not the target) it falls
through to the categorical / high-cardinality split on
`high_cardinality_threshold`. -/
theorem c2 (parse : String → Option Int) (df : DataFrame) (cfg : Config)
    (c : Col) (hc : c ∈ df.cols) (htext : isTextDtype c.dtype = true)
    (hn : (colNames df).Nodup) :
    ((∀ v ∈ c.values, isNull v = false → parsesAsDate parse v = true) ↔
      c.name ∈ (mkPipeline parse df cfg).datetime_cols) ∧
    ((∀ v ∈ c.values, isNull v = false → parsesAsDate parse v = true) →
      ∃ vs, tryToDatetime parse c.values = some vs ∧
        getCol (mkPipeline parse df cfg).df c.name =
          some ⟨c.name, Dtype.datetime64, vs⟩) ∧
    ((∃ v ∈ c.values, isNull v = false ∧ parsesAsDate parse v = false) →
      c.name ∉ (mkPipeline parse df cfg).datetime_cols ∧
      c.name ∉ (mkPipeline parse df cfg).numerical_cols ∧
      (cfg.target_col ≠ some c.name →
        (c.name ∈ (mkPipeline parse df cfg).categorical_cols ↔
          nunique c.values ≤ cfg.high_cardinality_threshold) ∧
        (c.name ∈ (mkPipeline parse df cfg).high_cardinality_cols ↔
          cfg.high_cardinality_threshold < nunique c.values))) := by
  have hiff : (∀ v ∈ c.values, isNull v = false → parsesAsDate parse v = true)
      ↔ (∀ v ∈ c.values, (tryParseValue parse v).isSome = true) := by
    constructor
    · intro h v hv
      cases hv2 : isNull v with
      | false => exact h v hv hv2
      | true => cases v <;> simp_all [isNull, tryParseValue]
    · intro h v hv _
      exact h v hv
  simp only [mkPipeline]
  refine ⟨?_, ?_, ?_⟩
  · rw [hiff, ← tryToDatetime_isSome_iff, mem_datetimeCols hn hc]
    unfold isDatetimeCol
    rw [isTextDtype_ne_datetime htext, htext]
    simp
  · intro hall
    have hsome : (tryToDatetime parse c.values).isSome = true :=
      (tryToDatetime_isSome_iff parse c.values).mpr (hiff.mp hall)
    rcases Option.isSome_iff_exists.mp hsome with ⟨vs, hvs⟩
    refine ⟨vs, hvs, ?_⟩
    have hg := getCol_map_coerce parse hn hc (n := df.nrows)
    rw [coerceCol_of_parse_ok htext hvs] at hg
    exact hg
  · intro hbad
    rcases hbad with ⟨v, hv, hnn, hpf⟩
    have hnone : tryToDatetime parse c.values = none := by
      refine tryToDatetime_eq_none ⟨v, hv, ?_⟩
      unfold parsesAsDate at hpf
      cases hpv : tryParseValue parse v with
      | none => rfl
      | some w => rw [hpv] at hpf; simp at hpf
    have hnotdt : isDatetimeCol parse c = false := by
      unfold isDatetimeCol
      rw [isTextDtype_ne_datetime htext, htext, hnone]
      rfl
    have hdt : c.name ∉ datetimeCols parse df := by
      rw [mem_datetimeCols hn hc, hnotdt]
      simp
    refine ⟨hdt, ?_, ?_⟩
    · intro hmem
      have := ((mem_numericalCols hn hc).mp hmem).1
      rw [isTextDtype_not_numeric htext] at this
      exact Bool.false_ne_true this
    · intro htgt
      have hcand : isCatCandidate cfg c = true := by
        unfold isCatCandidate
        rw [htext]
        simp
      constructor
      · rw [mem_categoricalCols hn hc]
        constructor
        · rintro ⟨_, _, _, h⟩
          exact h
        · intro h
          exact ⟨htgt, hdt, hcand, h⟩
      · rw [mem_highCardinalityCols hn hc]
        constructor
        · rintro ⟨_, _, _, h⟩
          exact h
        · intro h
          exact ⟨htgt, hdt, hcand, h⟩

/-- Witness for C2: a fully-parseable text column (with a null) is classified
datetime. -/
theorem c2_witness :
    "d" ∈ (mkPipeline parseIso c2df defaultCfg).datetime_cols :=
  ((c2 parseIso c2df defaultCfg datesCol (by decide) rfl (by decide)).1).mp
    (by decide)

/-! ### Claim C9 -/

/-- Claim C9: datetime parse probing never mutates a column that does not
fully qualify — a text-typed column with at least one non-null unparseable
value is stored in `self.df` exactly as it came in. -/
theorem c9 (parse : String → Option Int) (df : DataFrame) (cfg : Config)
    (c : Col) (hc : c ∈ df.cols) (htext : isTextDtype c.dtype = true)
    (hbad : ∃ v ∈ c.values, isNull v = false ∧ parsesAsDate parse v = false)
    (hn : (colNames df).Nodup) :
    getCol (mkPipeline parse df cfg).df c.name = some c := by
  rcases hbad with ⟨v, hv, hnn, hpf⟩
  have hnone : tryToDatetime parse c.values = none := by
    refine tryToDatetime_eq_none ⟨v, hv, ?_⟩
    unfold parsesAsDate at hpf
    cases hpv : tryParseValue parse v with
    | none => rfl
    | some w => rw [hpv] at hpf; simp at hpf
  have hg := getCol_map_coerce parse hn hc (n := df.nrows)
  rw [coerceCol_of_parse_fail hnone] at hg
  exact hg

/-- Witness for C9: a column that is one valid date plus one non-date string
keeps its original values. -/
theorem c9_witness :
    getCol (mkPipeline parseIso c9df defaultCfg).df "s" = some c9col :=
  c9 parseIso c9df defaultCfg c9col (by decide) rfl (by decide) (by decide)

/-! ### Claim C8 -/

/-- Claim C8 is false as stated: an all-null *text-typed* column does not
classify as categorical-with-empty-frequency-table or numerical — the
vacuous `pd.to_datetime` parse succeeds and it becomes a datetime column. -/
theorem c8_counterexample :
    "c" ∈ (mkPipeline parseNone c8df defaultCfg).datetime_cols ∧
    (mkPipeline parseNone c8df defaultCfg).categorical_cols = [] ∧
    (mkPipeline parseNone c8df defaultCfg).numerical_cols = [] ∧
    (mkPipeline parseNone c8df defaultCfg).high_cardinality_cols = [] := by
  decide

/-- Claim C8 (amended): a column with zero non-null values still classifies —
a text-typed one as datetime (the vacuous parse succeeds), a numeric-typed
non-target one as numerical and also as categorical — and the univariate
computations complete on the empty profile: an empty frequency table and a
numeric profile with zero count, undefined mean and zero outliers. -/
theorem c8_amended (parse : String → Option Int) (df : DataFrame) (cfg : Config)
    (c : Col) (hc : c ∈ df.cols) (hall : ∀ v ∈ c.values, v = Value.vNull)
    (hn : (colNames df).Nodup) :
    (isTextDtype c.dtype = true →
      c.name ∈ (mkPipeline parse df cfg).datetime_cols) ∧
    (isNumericDtype c.dtype = true → cfg.target_col ≠ some c.name →
      c.name ∈ (mkPipeline parse df cfg).numerical_cols ∧
      c.name ∈ (mkPipeline parse df cfg).categorical_cols) ∧
    valueCounts c.values = [] ∧
    univariate_categorical_col df.nrows c.values = ⟨[], []⟩ ∧
    univariate_numerical_col c.values = ⟨0, none, 0⟩ := by
  have hvc : valueCounts c.values = [] := by
    unfold valueCounts
    rw [uniques_of_all_null hall]
    rfl
  have hnum0 : numericList c.values = [] := numericList_of_all_null hall
  simp only [mkPipeline]
  refine ⟨?_, ?_, hvc, ?_, ?_⟩
  · intro htext
    rw [mem_datetimeCols hn hc]
    unfold isDatetimeCol
    rw [htext]
    have : (tryToDatetime parse c.values).isSome = true := by
      rw [tryToDatetime_isSome_iff]
      intro v hv
      rw [hall v hv]
      rfl
    rw [this]
    simp
  · intro hnum htgt
    have hdt : c.name ∉ datetimeCols parse df := by
      rw [mem_datetimeCols hn hc, isNumericDtype_not_datetimeCol hnum]
      simp
    have hnu : nunique c.values = 0 := nunique_of_all_null hall
    refine ⟨(mem_numericalCols hn hc).mpr ⟨hnum, htgt, hdt⟩, ?_⟩
    refine (mem_categoricalCols hn hc).mpr ⟨htgt, hdt, ?_, ?_⟩
    · unfold isCatCandidate
      rw [hnum, hnu]
      simp
    · rw [hnu]
      exact Nat.zero_le _
  · unfold univariate_categorical_col
    rw [hvc]
    rfl
  · unfold univariate_numerical_col
    rw [hnum0]
    have hoc : outlierCount c.values = 0 := by
      unfold outlierCount
      rw [List.length_eq_zero]
      rw [List.filter_eq_nil_iff]
      intro v hv
      rw [hall v hv]
      unfold isOutlierValue
      simp [toRat]
    rw [hoc]
    rfl

/-- Witness for the amended C8: an all-null `float64` column is classified as
both numerical and categorical, with empty profiles. -/
theorem c8_amended_witness :
    "f" ∈ (mkPipeline parseNone c8dfF defaultCfg).numerical_cols ∧
    "f" ∈ (mkPipeline parseNone c8dfF defaultCfg).categorical_cols :=
  (c8_amended parseNone c8dfF defaultCfg c8colF (by decide) (by decide)
    (by decide)).2.1 rfl (by decide)

/-! ### Claim C5 -/

/-- Claim C5 is false as stated: when `high_cardinality_threshold < 5`, a
high-cardinality column with fewer than 5 distinct values retains all of them,
not "exactly the 5 most frequent".  Here the threshold is 2, the column has 4
distinct values, and the retained profile has 4 entries. -/
theorem c5_counterexample :
    "v" ∈ (mkPipeline parseNone c5df c5cfg).high_cardinality_cols ∧
    nunique c5vals = 4 ∧
    (univariate_highcard_col 5 c5vals).counts.length = 4 ∧
    (univariate_highcard_col 5 c5vals).counts.length ≠ 5 := by
  decide

/-- Claim C5 (amended): a categorical-family column splits on
`high_cardinality_threshold` (`n_unique <= threshold` iff it is in the
categorical list); the profile of a categorical column retains the full frequency
distribution sorted by descending count, and the profile of a high-cardinality
column retains the `min 5 n_unique` most frequent values (exactly 5 whenever
`n_unique >= 5`), ordered by descending count, with counts and percentages of
total rows. -/
theorem c5_amended (parse : String → Option Int) (df : DataFrame) (cfg : Config)
    (c : Col) (hc : c ∈ df.cols) (hn : (colNames df).Nodup) :
    (c.name ∈ (mkPipeline parse df cfg).categorical_cols ∨
        c.name ∈ (mkPipeline parse df cfg).high_cardinality_cols →
      (c.name ∈ (mkPipeline parse df cfg).categorical_cols ↔
        nunique c.values ≤ cfg.high_cardinality_threshold)) ∧
    (c.name ∈ (mkPipeline parse df cfg).categorical_cols →
      (univariate_categorical_col df.nrows c.values).counts =
        valueCounts c.values ∧
      (valueCounts c.values).length = nunique c.values ∧
      List.Sorted cntGE (valueCounts c.values) ∧
      (∀ v ∈ uniques c.values,
        (v, countOcc v c.values) ∈ valueCounts c.values) ∧
      (univariate_categorical_col df.nrows c.values).pcts =
        (valueCounts c.values).map
          (fun p => (p.1, round2 ((p.2 : ℚ) / (df.nrows : ℚ) * 100)))) ∧
    (c.name ∈ (mkPipeline parse df cfg).high_cardinality_cols →
      (univariate_highcard_col df.nrows c.values).counts =
        (valueCounts c.values).take 5 ∧
      (univariate_highcard_col df.nrows c.values).counts.length =
        min 5 (nunique c.values) ∧
      List.Sorted cntGE (univariate_highcard_col df.nrows c.values).counts ∧
      (univariate_highcard_col df.nrows c.values).pcts =
        (univariate_highcard_col df.nrows c.values).counts.map
          (fun p => (p.1, round2 ((p.2 : ℚ) / (df.nrows : ℚ) * 100)))) := by
  have hlen : (valueCounts c.values).length = nunique c.values := by
    unfold valueCounts
    rw [List.length_insertionSort, List.length_map]
    rfl
  simp only [mkPipeline]
  refine ⟨?_, ?_, ?_⟩
  · intro hmem
    constructor
    · intro hcat
      exact ((mem_categoricalCols hn hc).mp hcat).2.2.2
    · intro hle
      rcases hmem with hcat | hhigh
      · exact hcat
      · have := ((mem_highCardinalityCols hn hc).mp hhigh).2.2.2
        omega
  · intro _
    refine ⟨rfl, hlen, List.sorted_insertionSort cntGE _, ?_, rfl⟩
    intro v hv
    apply (List.perm_insertionSort cntGE _).mem_iff.mpr
    exact List.mem_map_of_mem _ hv
  · intro _
    refine ⟨rfl, ?_, ?_, rfl⟩
    · unfold univariate_highcard_col
      rw [List.length_take, hlen]
    · exact (List.sorted_insertionSort cntGE _).sublist (List.take_sublist _ _)

/-- Witness for the amended C5 at the concrete high-cardinality column with 4
distinct values: the retained profile has `min 5 4` entries. -/
theorem c5_amended_witness :
    (univariate_highcard_col 5 c5vals).counts.length = min 5 (nunique c5vals) :=
  ((c5_amended parseNone c5df c5cfg c5col (by decide) (by decide)).2.2
    (by decide)).2.1

/-! ### Claim C6 -/

/-- Claim C6: the reported outlier count equals the number of (non-null)
values strictly outside `[Q1 - 1.5*IQR, Q3 + 1.5*IQR]`; on the concrete
column with `Q1 = 10` and `Q3 = 20` (fences `[-5, 35]`), the value 36 is
counted as an outlier and 34 is not. -/
theorem c6 :
    (∀ vals : List Value,
      outlierCount vals =
        ((numericList vals).filter
          (fun q => decide (q < lowerFence vals ∨ upperFence vals < q))).length) ∧
    quartile1 c6vals = 10 ∧ quartile3 c6vals = 20 ∧
    lowerFence c6vals = -5 ∧ upperFence c6vals = 35 ∧
    isOutlierValue c6vals (Value.vInt 36) = true ∧
    isOutlierValue c6vals (Value.vInt 34) = false ∧
    outlierCount c6vals = 1 := by
  refine ⟨?_, by decide, by decide, by decide, by decide, by decide, by decide,
    by decide⟩
  intro vals
  have h := length_filter_toRat
    (fun q => decide (q < lowerFence vals) || decide (upperFence vals < q)) vals
  calc outlierCount vals
      = ((numericList vals).filter
          (fun q => decide (q < lowerFence vals) ||
            decide (upperFence vals < q))).length := h
    _ = _ := by simp only [Bool.decide_or]

/-! ### Claim C7 -/

/-- Claim C7: for a non-empty table, the duplicate percentage in the overview is
`duplicate_count / total_rows * 100` rounded to 2 decimals, and the
missing-value table holds exactly the columns with at least one null, sorted
descending by absolute missing count. -/
theorem c7 (df : DataFrame) (h : 0 < df.nrows) :
    (data_overview df).dupPct =
      round2 ((duplicatedCount df : ℚ) / (df.nrows : ℚ) * 100) ∧
    (∀ e ∈ (data_overview df).missingTable, 0 < e.2.1) ∧
    List.Sorted missGE (data_overview df).missingTable ∧
    (∀ c ∈ df.cols, 0 < missingCount c.values →
      (c.name, missingCount c.values,
        round2 ((missingCount c.values : ℚ) / (df.nrows : ℚ) * 100)) ∈
        (data_overview df).missingTable) := by
  have hmt : (data_overview df).missingTable =
      ((df.cols.filter (fun c => decide (0 < missingCount c.values))).map
        (fun c => (c.name, missingCount c.values,
          round2 ((missingCount c.values : ℚ) / (df.nrows : ℚ) *
            100)))).insertionSort missGE := rfl
  refine ⟨rfl, ?_, ?_, ?_⟩
  · intro e he
    rw [hmt] at he
    have he2 := (List.perm_insertionSort missGE _).mem_iff.mp he
    rcases List.mem_map.mp he2 with ⟨c, hcf, hce⟩
    have hp := (List.mem_filter.mp hcf).2
    simp only [decide_eq_true_eq] at hp
    rw [← hce]
    exact hp
  · rw [hmt]
    exact List.sorted_insertionSort missGE _
  · intro c hc hm
    rw [hmt]
    apply (List.perm_insertionSort missGE _).mem_iff.mpr
    exact List.mem_map_of_mem _
      (List.mem_filter.mpr ⟨hc, by simpa using hm⟩)

/-- Witness for C7 at a concrete 3-row table with one duplicate row and one
column with a single null. -/
theorem c7_witness :
    (data_overview c7df).dupPct =
      round2 ((duplicatedCount c7df : ℚ) / (c7df.nrows : ℚ) * 100) ∧
    List.Sorted missGE (data_overview c7df).missingTable :=
  ⟨(c7 c7df (by decide)).1, (c7 c7df (by decide)).2.2.1⟩

/-! ### Claim C4 -/

/-- Claim C4: `load_data` raises `PathNotFound` iff the directory does not
exist; when it exists no individual failure propagates, and a directory with 7
of the 9 expected files present (all well-formed) yields 7 loaded tables plus
an ordered list of exactly 2 recorded `MissingFile` failures. -/
theorem c4 (fs : FS) :
    ((∃ e, load_data fs = Except.error e) ↔ fs.dirExists = false) ∧
    (fs.dirExists = true → allGood fs → presentCount fs = 7 →
      ∃ frames fails,
        load_data fs = Except.ok (frames, fails) ∧ frames.length = 7 ∧
          fails.length = 2 ∧ ∀ f ∈ fails, f.2.1 = FailKind.missingFile) := by
  constructor
  · constructor
    · rintro ⟨e, he⟩
      unfold load_data at he
      cases hd : fs.dirExists with
      | false => rfl
      | true => rw [hd] at he; simp at he
    · intro hd
      refine ⟨LoadError.pathNotFound, ?_⟩
      unfold load_data
      rw [hd]
      simp
  · intro hd hg hp
    obtain ⟨h1, h2, h3⟩ := loadList_spec fs hg datasets
    have hf : (loadList fs datasets).1.length = 7 := by
      rw [h1]
      exact hp
    have h9 : datasets.length = 9 := rfl
    refine ⟨(loadList fs datasets).1, (loadList fs datasets).2, ?_, hf, ?_, h3⟩
    · unfold load_data
      rw [hd]
      rfl
    · omega

/-- Witness for C4 at the concrete directory `fs7` holding 7 of the 9
expected files. -/
theorem c4_witness :
    ∃ frames fails,
      load_data fs7 = Except.ok (frames, fails) ∧ frames.length = 7 ∧
        fails.length = 2 ∧ ∀ f ∈ fails, f.2.1 = FailKind.missingFile :=
  (c4 fs7).2 rfl (by unfold allGood; decide) (by decide)

/-! ### Claim C10 -/

/-- Claim C10: `cast_data_types` is not atomic on error — columns are
converted in place in mapping order, so when the cast of some column raises,
the dataframe of the caller holds every earlier conversion (the error carries
exactly the dataframe after the successful prefix), and no before/after type
report is produced for the call. -/
theorem c10 (castFn : Col → String → Option Col) (df df1 : DataFrame)
    (pre post : List (String × String)) (column dtype : String)
    (hpre : castList castFn df pre = Except.ok df1)
    (hfail : castOne castFn df1 column dtype = none) :
    cast_data_types castFn df (pre ++ (column, dtype) :: post) =
      Except.error df1 ∧
    ∀ r, cast_data_types castFn df (pre ++ (column, dtype) :: post) ≠
      Except.ok r := by
  have h1 : castList castFn df (pre ++ (column, dtype) :: post) =
      Except.error df1 := by
    rw [castList_append, hpre]
    show castList castFn df1 ((column, dtype) :: post) = Except.error df1
    rw [castList, hfail]
  constructor
  · unfold cast_data_types
    rw [h1]
  · intro r
    unfold cast_data_types
    rw [h1]
    simp

/-- Witness for C10: casting column `a` succeeds, casting column `b` raises,
the call fails with `a` already converted in place and no report. -/
theorem c10_witness :
    cast_data_types castFn10 c10df [("a", "int64"), ("b", "datetime")] =
      Except.error c10df1 :=
  (c10 castFn10 c10df c10df1 [("a", "int64")] [] "b" "datetime" rfl rfl).1

end Olist
